import Mathlib

/-!
Verification development for the `requests-enhanced` HTTP client library.

The repository couples three subsystems behind one session object: a
transport negotiation and fallback layer, a retry/backoff execution engine,
and an OAuth credential lifecycle.  The source tree provides the package
initializer (`src/requests_enhanced/__init__.py`), the error taxonomy
(`src/requests_plus/exceptions.py`), the test-suite and example scripts;
the session, adapter and oauth implementation modules are absent, so those
parts are modelled from the specification (each such definition says so in
its doc comment).
-/

set_option autoImplicit false

namespace RequestsEnhanced

/-! ### Error taxonomy, from `src/src/requests_plus/exceptions.py` -/

/-- An underlying Python exception value (the `original_exception` argument),
abstracted as a tagged message. -/
structure PyException where
  message : String
deriving Repr, DecidableEq

/-- The concrete class of a raised library error, one per class declared in
`src/src/requests_plus/exceptions.py`. -/
inductive ErrorClass where
  | requestsPlusError
  | requestRetryError
  | requestTimeoutError
  | maxRetriesExceededError
deriving Repr, DecidableEq

/-- A raised library error: every class in `exceptions.py` stores the
constructor's `message` and `original_exception` arguments verbatim
(`self.original_exception = original_exception`). -/
structure RequestsPlusError where
  cls : ErrorClass
  message : String
  original_exception : Option PyException
deriving Repr, DecidableEq

/-- The two-argument constructor shared by every class in `exceptions.py`:
it stores the message and the optional original exception unchanged. -/
def RequestsPlusError.new (cls : ErrorClass) (message : String)
    (original_exception : Option PyException) : RequestsPlusError :=
  ⟨cls, message, original_exception⟩

/-- The one-argument constructor call: in `exceptions.py` the
`original_exception` parameter defaults to `None`. -/
def RequestsPlusError.ofMessage (cls : ErrorClass) (message : String) :
    RequestsPlusError :=
  RequestsPlusError.new cls message none

/-! ### Retry/backoff execution engine

Modelled from the spec: the orchestration loop of §4.3 (`sessions.py` is not
in the source tree).  A transport is abstracted as a function from the
attempt number (1-based) to the outcome of that single HTTP exchange. -/

/-- Outcome of one transport attempt, per the classification of spec §4.2:
success, a retryable status, or a fatal failure. -/
inductive Outcome where
  | success (status : Nat)
  | retryableStatus (status : Nat)
  | fatal (exc : PyException)
deriving Repr, DecidableEq

/-- Whether an outcome is classified retryable. -/
def Outcome.isRetryable : Outcome → Bool
  | .retryableStatus _ => true
  | _ => false

/-- Result of executing one logical request through the retry loop:
a response, exhaustion after all attempts (carrying the attempts made and
the last underlying failure — surfaced as `MaxRetriesExceededError` /
`RetryExhaustedError`), or an immediate fatal failure. -/
inductive ExecResult where
  | response (status : Nat) (attemptsMade : Nat)
  | retryExhausted (attemptsMade : Nat) (lastFailure : Outcome)
  | fatalError (attemptsMade : Nat) (exc : PyException)
deriving Repr, DecidableEq

/-- The number of transport attempts the loop executed before resolving. -/
def ExecResult.attemptsMade : ExecResult → Nat
  | .response _ a => a
  | .retryExhausted a _ => a
  | .fatalError a _ => a

/-- Modelled from the spec: the attempt loop of §4.3.  `attempt` is the
1-based number of the attempt about to run and `fuel` the count of retry
budget units remaining after it; on a retryable outcome with budget left the
loop recurs, otherwise it resolves. -/
def attemptLoop (transport : Nat → Outcome) : Nat → Nat → ExecResult
  | attempt, fuel =>
    match transport attempt with
    | .success s => .response s attempt
    | .fatal e => .fatalError attempt e
    | .retryableStatus s =>
      match fuel with
      | 0 => .retryExhausted attempt (.retryableStatus s)
      | fuel' + 1 => attemptLoop transport (attempt + 1) fuel'

/-- Modelled from the spec: `execute` of §4.3 with `max_retries = N` makes
at most `N + 1` transport attempts, starting at attempt 1. -/
def execute (transport : Nat → Outcome) (maxRetries : Nat) : ExecResult :=
  attemptLoop transport 1 maxRetries

/-- When every attempt is retryable, the loop consumes all its fuel and
exhausts at attempt `start + fuel` with that attempt's outcome. -/
theorem attemptLoop_all_retryable (transport : Nat → Outcome)
    (h : ∀ k, (transport k).isRetryable = true) :
    ∀ fuel start, attemptLoop transport start fuel =
      .retryExhausted (start + fuel) (transport (start + fuel)) := by
  intro fuel
  induction fuel with
  | zero =>
    intro start
    have hs := h start
    unfold attemptLoop
    cases hts : transport start with
    | success s => rw [hts] at hs; simp [Outcome.isRetryable] at hs
    | fatal e => rw [hts] at hs; simp [Outcome.isRetryable] at hs
    | retryableStatus s => simp [hts]
  | succ fuel ih =>
    intro start
    have hs := h start
    unfold attemptLoop
    cases hts : transport start with
    | success s => rw [hts] at hs; simp [Outcome.isRetryable] at hs
    | fatal e => rw [hts] at hs; simp [Outcome.isRetryable] at hs
    | retryableStatus s =>
      simp only
      have e : start + 1 + fuel = start + (fuel + 1) := by omega
      rw [ih (start + 1), e]

/-- The loop never executes more than `start + fuel` attempts. -/
theorem attemptLoop_attempts_le (transport : Nat → Outcome) :
    ∀ fuel start, (attemptLoop transport start fuel).attemptsMade ≤ start + fuel := by
  intro fuel
  induction fuel with
  | zero =>
    intro start
    unfold attemptLoop
    cases transport start <;> simp [ExecResult.attemptsMade]
  | succ fuel ih =>
    intro start
    unfold attemptLoop
    cases transport start with
    | success s => simp only [ExecResult.attemptsMade]; omega
    | fatal e => simp only [ExecResult.attemptsMade]; omega
    | retryableStatus s =>
      simp only
      calc (attemptLoop transport (start + 1) fuel).attemptsMade
          ≤ (start + 1) + fuel := ih (start + 1)
        _ ≤ start + (fuel + 1) := by omega

/-! ### OAuth2 session state

Modelled from the spec: §4.5 (the `oauth.py` module is not in the source
tree; the token-property and refresh semantics follow §4.5 and the
behaviour asserted by `tests/test_oauth_integration.py`). -/

/-- An OAuth2 token, per the spec data model: access value, token kind,
expiry, refresh value. -/
structure Token where
  access_token : String
  token_type : String
  expires_in : Option Nat
  refresh_token : Option String
deriving Repr, DecidableEq

/-- Authorization material attached to outgoing requests, derived from the
current token. -/
structure AuthMaterial where
  token : Token
deriving Repr, DecidableEq

/-- State of an OAuth2 enhanced session: the authoritative token, the
derived `auth` attribute, and whether a token updater callback was
registered at construction. -/
structure OAuth2Session where
  client_id : String
  token : Option Token
  auth : Option AuthMaterial
  has_updater : Bool
deriving Repr, DecidableEq

/-- Modelled from the spec: the `token` property setter (§4.5 `set_token`) —
any state goes to HasToken, or to NoToken if the assigned value is empty;
the `auth` attribute holds Authorization material exactly when a token is
present. -/
def OAuth2Session.set_token (s : OAuth2Session) (t : Option Token) :
    OAuth2Session :=
  { s with token := t, auth := t.map AuthMaterial.mk }

/-- Modelled from the spec: `_handle_token_update` — replace the
authoritative token wholesale and synchronously notify the registered token
updater; the returned list records the callback invocations made. -/
def OAuth2Session.handle_token_update (s : OAuth2Session) (t : Token) :
    OAuth2Session × List Token :=
  (s.set_token (some t), if s.has_updater then [t] else [])

/-- Modelled from the spec: `refresh_token` (§4.5 Refreshing → HasToken) —
invoke the refresh collaborator (its result is the `exchanged` argument),
install the returned token wholesale, notify the updater, and return the
new token to the caller. -/
def OAuth2Session.refresh (s : OAuth2Session) (exchanged : Token) :
    Token × OAuth2Session × List Token :=
  let r := s.handle_token_update exchanged
  (exchanged, r.1, r.2)

/-! ### Claim theorems C1–C3 -/

/-- Claim C1: with `max_retries = N` and a transport that returns a
retryable status on every attempt, `execute` makes exactly `N + 1`
attempts and resolves to retry exhaustion (`MaxRetriesExceededError` /
`RetryExhaustedError`) carrying the last underlying failure; moreover for
every transport the attempt counter never exceeds `N + 1`. -/
theorem claim_C1_retry_exhaustion (N : Nat) (transport : Nat → Outcome)
    (h : ∀ k, (transport k).isRetryable = true) :
    execute transport N = .retryExhausted (N + 1) (transport (N + 1)) ∧
    (execute transport N).attemptsMade = N + 1 ∧
    ∀ t : Nat → Outcome, (execute t N).attemptsMade ≤ N + 1 := by
  have e : 1 + N = N + 1 := Nat.add_comm 1 N
  have h1 : execute transport N = .retryExhausted (N + 1) (transport (N + 1)) := by
    unfold execute
    rw [attemptLoop_all_retryable transport h N 1, e]
  refine ⟨h1, ?_, ?_⟩
  · rw [h1]; rfl
  · intro t
    have := attemptLoop_attempts_le t N 1
    unfold execute
    omega

/-- Witness for C1: three retries against a transport that always returns
status 503 yield exhaustion after exactly three attempts. -/
theorem claim_C1_retry_exhaustion_witness :
    execute (fun _ => Outcome.retryableStatus 503) 2 =
      ExecResult.retryExhausted 3 (Outcome.retryableStatus 503) ∧
    (execute (fun _ => Outcome.retryableStatus 503) 2).attemptsMade = 3 :=
  ⟨(claim_C1_retry_exhaustion 2 (fun _ => Outcome.retryableStatus 503)
      (fun _ => rfl)).1,
   (claim_C1_retry_exhaustion 2 (fun _ => Outcome.retryableStatus 503)
      (fun _ => rfl)).2.1⟩

/-- Claim C2: assigning a token to an OAuth2 session makes it readable back
and attaches Authorization material; assigning `None` clears both; this
holds from any prior session state. -/
theorem claim_C2_token_roundtrip (s : OAuth2Session) (T : Token) :
    (s.set_token (some T)).token = some T ∧
    (s.set_token (some T)).auth ≠ none ∧
    (s.set_token none).token = none ∧
    (s.set_token none).auth = none := by
  refine ⟨rfl, ?_, rfl, rfl⟩
  simp [OAuth2Session.set_token]

/-- Claim C3: a successful refresh replaces the session's token wholesale
with the collaborator's token, returns that token to the caller, and
invokes the registered token updater exactly once with exactly that token
(and not at all when none is registered). -/
theorem claim_C3_refresh_replaces_token (s : OAuth2Session) (t : Token) :
    (s.refresh t).1 = t ∧
    (s.refresh t).2.1.token = some t ∧
    (s.refresh t).2.2 = (if s.has_updater then [t] else []) :=
  ⟨rfl, rfl, rfl⟩

/-! ### Retry Policy backoff, modelled from spec §4.2 -/

/-- Modelled from the spec: §4.2 backoff — the delay before retry attempt
`k` (1-based) is `min(backoff_cap, backoff_base × 2 ^ (k − 1))`. -/
def backoffDelay (base cap : ℚ) (attempt : Nat) : ℚ :=
  min cap (base * 2 ^ (attempt - 1))

/-- Modelled from the spec: optional uniform jitter in `[0, delay]`, drawn
as a fraction `u ∈ [0, 1]` of the computed delay. -/
def applyJitter (u delay : ℚ) : ℚ := u * delay

/-- Modelled from the spec: a server-supplied retry-after hint, when the
policy honors it, overrides the computed delay, clamped to the cap. -/
def retryAfterOverride (cap hint : ℚ) : ℚ := min cap hint

/-- Counterexample to claim C4 as stated: with base 1 and cap 1, the
jitter-free delay before attempt 3 is the cap, 1, not `1 × 2 ^ (3 − 1) = 4`,
so the delay is not always exactly `b × 2 ^ (k − 1)` — the cap clamps it. -/
theorem claim_C4_counterexample :
    ¬ backoffDelay 1 1 3 = 1 * 2 ^ (3 - 1) := by
  norm_num [backoffDelay]

/-- Claim C4 (amended): the delay before retry attempt `k` equals
`min(c, b × 2 ^ (k − 1))`; with jitter disabled it equals `b × 2 ^ (k − 1)`
exactly whenever that value does not exceed the cap; the delay sequence is
non-decreasing in `k` and every delay is bounded by `c`; with jitter enabled
the delay lies in `[0, min(c, b × 2 ^ (k − 1))]`; an honored retry-after
hint overrides the computed delay clamped to `c`. -/
theorem claim_C4_backoff (b c u hint : ℚ) (k : Nat)
    (hb : 0 ≤ b) (hc : 0 ≤ c) (hu0 : 0 ≤ u) (hu1 : u ≤ 1) :
    backoffDelay b c k = min c (b * 2 ^ (k - 1)) ∧
    (b * 2 ^ (k - 1) ≤ c → backoffDelay b c k = b * 2 ^ (k - 1)) ∧
    backoffDelay b c k ≤ backoffDelay b c (k + 1) ∧
    backoffDelay b c k ≤ c ∧
    0 ≤ applyJitter u (backoffDelay b c k) ∧
    applyJitter u (backoffDelay b c k) ≤ backoffDelay b c k ∧
    retryAfterOverride c hint = min c hint := by
  have hpow : (0 : ℚ) ≤ 2 ^ (k - 1) := by positivity
  have hd0 : 0 ≤ backoffDelay b c k :=
    le_min hc (mul_nonneg hb hpow)
  refine ⟨rfl, fun hle => min_eq_right hle, ?_, min_le_left _ _,
    mul_nonneg hu0 hd0, ?_, rfl⟩
  · unfold backoffDelay
    refine min_le_min le_rfl ?_
    refine mul_le_mul_of_nonneg_left ?_ hb
    exact pow_le_pow_right₀ (by norm_num) (by omega)
  · exact mul_le_of_le_one_left hd0 hu1

/-- Witness for C4 at base 1, cap 10, jitter fraction 1/2, attempt 2. -/
theorem claim_C4_backoff_witness :
    backoffDelay 1 10 2 = min 10 (1 * 2 ^ (2 - 1)) ∧
    backoffDelay 1 10 2 ≤ backoffDelay 1 10 3 ∧
    backoffDelay 1 10 2 ≤ 10 :=
  have h := claim_C4_backoff 1 10 (1 / 2) 7 2 (by norm_num) (by norm_num)
    (by norm_num) (by norm_num)
  ⟨h.1, h.2.2.1, h.2.2.2.1⟩

/-! ### Transport Selector, modelled from spec §4.1 and §9 -/

/-- The protocol versions the library negotiates. -/
inductive ProtocolVersion where
  | http11
  | http2
  | http3
deriving Repr, DecidableEq

/-- Modelled from the spec: the deterministic fallback chain of §4.1,
most-preferred first; requesting HTTP/1.1 never upgrades. -/
def fallbackChain : ProtocolVersion → List ProtocolVersion
  | .http3 => [.http3, .http2, .http11]
  | .http2 => [.http2, .http11]
  | .http11 => [.http11]

/-- Modelled from the spec: the Transport Selector memoizes, once at session
construction, which protocol implementations are available in the running
process (§4.1, §9 capability set). -/
structure TransportSelector where
  http11Available : Bool
  http2Available : Bool
  http3Available : Bool
deriving Repr, DecidableEq

/-- Construction of the selector: the capability probe runs here, once; its
results are stored and never re-checked per request. -/
def TransportSelector.construct (probe : ProtocolVersion → Bool) :
    TransportSelector :=
  ⟨probe .http11, probe .http2, probe .http3⟩

/-- Read the memoized availability flag for a protocol version. -/
def TransportSelector.available (s : TransportSelector) :
    ProtocolVersion → Bool
  | .http11 => s.http11Available
  | .http2 => s.http2Available
  | .http3 => s.http3Available

/-- Modelled from the spec: `resolve` builds the fallback chain for the
requested version and prunes candidates whose protocol implementation is
unavailable, consulting only the memoized capability flags. -/
def TransportSelector.resolve (s : TransportSelector)
    (requested : ProtocolVersion) : List ProtocolVersion :=
  (fallbackChain requested).filter s.available

/-- Claim C5: the fallback chains are exactly [3,2,1.1], [2,1.1] and [1.1];
`resolve` filters the chain by the capability flags memoized at
construction, those flags agree with the construction-time probe, and a
version survives resolution exactly when it is in the chain and its
implementation was available at construction. -/
theorem claim_C5_resolve_chain (probe : ProtocolVersion → Bool)
    (requested w : ProtocolVersion) :
    fallbackChain .http3 = [.http3, .http2, .http11] ∧
    fallbackChain .http2 = [.http2, .http11] ∧
    fallbackChain .http11 = [.http11] ∧
    (TransportSelector.construct probe).resolve requested =
      (fallbackChain requested).filter
        (TransportSelector.construct probe).available ∧
    (TransportSelector.construct probe).available w = probe w ∧
    (w ∈ (TransportSelector.construct probe).resolve requested ↔
      w ∈ fallbackChain requested ∧ probe w = true) := by
  have hmem : (TransportSelector.construct probe).available w = probe w := by
    cases w <;> rfl
  refine ⟨rfl, rfl, rfl, rfl, hmem, ?_⟩
  rw [TransportSelector.resolve, List.mem_filter, hmem]

/-! ### Authorization-failure handling, modelled from spec §4.5 -/

/-- Outcome of one transmission of an authenticated request: a response
status or a 401-class authorization rejection. -/
inductive AuthOutcome where
  | ok (status : Nat)
  | unauthorized
deriving Repr, DecidableEq

/-- What the authenticated session surfaces to the caller. -/
inductive AuthResult where
  | response (status : Nat)
  | authenticationError
deriving Repr, DecidableEq

/-- Trace of handling one authenticated request: the surfaced result, how
many token refreshes were performed and how many replays were sent. -/
structure AuthTrace where
  result : AuthResult
  refreshCount : Nat
  replayCount : Nat
deriving Repr, DecidableEq

/-- Modelled from the spec: the replay-once rule of §4.5 — a 401-class
rejection triggers one refresh and one replay of the original request;
a second rejection is surfaced as a fatal authentication error, never fed
back into another refresh.  `responder n` is the outcome of the n-th
transmission (0 = original send, 1 = the single replay). -/
def authenticatedRequest (responder : Nat → AuthOutcome) : AuthTrace :=
  match responder 0 with
  | .ok s => ⟨.response s, 0, 0⟩
  | .unauthorized =>
    match responder 1 with
    | .ok s => ⟨.response s, 1, 1⟩
    | .unauthorized => ⟨.authenticationError, 1, 1⟩

/-- Claim C6: when the original send and the replay both come back
unauthorized, the session surfaces a fatal authentication error after
exactly one refresh and one replay; and for every responder the session
performs at most one refresh and at most one replay. -/
theorem claim_C6_replay_once (responder : Nat → AuthOutcome)
    (h0 : responder 0 = .unauthorized) (h1 : responder 1 = .unauthorized) :
    (authenticatedRequest responder).result = .authenticationError ∧
    (authenticatedRequest responder).refreshCount = 1 ∧
    (authenticatedRequest responder).replayCount = 1 ∧
    ∀ r : Nat → AuthOutcome, (authenticatedRequest r).refreshCount ≤ 1 ∧
      (authenticatedRequest r).replayCount ≤ 1 := by
  have hbounds : ∀ r : Nat → AuthOutcome,
      (authenticatedRequest r).refreshCount ≤ 1 ∧
      (authenticatedRequest r).replayCount ≤ 1 := by
    intro r
    unfold authenticatedRequest
    cases r 0 <;> [skip; cases r 1] <;> simp
  unfold authenticatedRequest
  rw [h0, h1]
  exact ⟨rfl, rfl, rfl, hbounds⟩

/-- Witness for C6: a responder that rejects every transmission. -/
theorem claim_C6_replay_once_witness :
    (authenticatedRequest fun _ => AuthOutcome.unauthorized).result =
      AuthResult.authenticationError ∧
    (authenticatedRequest fun _ => AuthOutcome.unauthorized).refreshCount = 1 ∧
    (authenticatedRequest fun _ => AuthOutcome.unauthorized).replayCount = 1 :=
  have h := claim_C6_replay_once (fun _ => AuthOutcome.unauthorized) rfl rfl
  ⟨h.1, h.2.1, h.2.2.1⟩

/-! ### Surfacing failures with their cause, spec §7 and `exceptions.py` -/

/-- The underlying Python exception corresponding to a transport outcome,
used as the preserved cause when the failure is wrapped. -/
def Outcome.asException : Outcome → PyException
  | .success s => ⟨"status " ++ toString s⟩
  | .retryableStatus s => ⟨"retryable status " ++ toString s⟩
  | .fatal e => e

/-- Modelled from the spec: the surfacing boundary of §7 — exhaustion is
wrapped as the max-retries error carrying the last underlying failure, a
fatal transport failure is wrapped with its original cause, and a response
surfaces no error. -/
def surface : ExecResult → Option RequestsPlusError
  | .response _ _ => none
  | .retryExhausted _ last =>
    some (RequestsPlusError.new .maxRetriesExceededError
      "Max retries exceeded" (some last.asException))
  | .fatalError _ e =>
    some (RequestsPlusError.new .requestsPlusError "Request failed" (some e))

/-- Claim C7: every error class stores the cause passed to its constructor
in `original_exception` (and `None` when no cause is supplied); a request
surfaces no error exactly when it produced a response, and every surfaced
error carries a non-None preserved cause — no failure is silently
swallowed. -/
theorem claim_C7_cause_preserved (cls : ErrorClass) (msg : String)
    (orig : Option PyException) (transport : Nat → Outcome) (N : Nat) :
    (RequestsPlusError.new cls msg orig).original_exception = orig ∧
    (RequestsPlusError.ofMessage cls msg).original_exception = none ∧
    (surface (execute transport N) = none ↔
      ∃ s a, execute transport N = ExecResult.response s a) ∧
    ∀ e, surface (execute transport N) = some e →
      e.original_exception ≠ none := by
  refine ⟨rfl, rfl, ?_, ?_⟩
  · cases h : execute transport N <;> simp [surface, h]
  · intro e he
    cases h : execute transport N <;> rw [h] at he <;>
      simp [surface, RequestsPlusError.new] at he <;>
      simp [← he, RequestsPlusError.new]

/-- Witness for C7 at a concrete error class, message and cause, and a
transport that always fails fatally. -/
theorem claim_C7_cause_preserved_witness :
    (RequestsPlusError.new ErrorClass.requestRetryError "boom"
      (some ⟨"cause"⟩)).original_exception = some ⟨"cause"⟩ ∧
    (RequestsPlusError.ofMessage ErrorClass.requestsPlusError
      "boom").original_exception = none :=
  have h := claim_C7_cause_preserved ErrorClass.requestRetryError "boom"
    (some ⟨"cause"⟩) (fun _ => Outcome.fatal ⟨"io error"⟩) 1
  ⟨h.1, (claim_C7_cause_preserved ErrorClass.requestsPlusError "boom" none
    (fun _ => Outcome.fatal ⟨"io error"⟩) 1).2.1⟩

/-! ### OAuth1 token exchange, modelled from spec §4.4 -/

/-- State of an OAuth1 enhanced session: the signing credential; the
resource-owner fields are absent until a token exchange succeeds. -/
structure OAuth1Session where
  client_key : String
  client_secret : String
  resource_owner_key : Option String
  resource_owner_secret : Option String
deriving Repr, DecidableEq

/-- The token mapping produced by an OAuth1 token-exchange endpoint. -/
structure OAuthTokenMapping where
  oauth_token : String
  oauth_token_secret : String
deriving Repr, DecidableEq

/-- Modelled from the spec: `fetch_request_token` (§4.4) — a one-shot
exchange whose successful result (the `exchanged` argument) is returned to
the caller, mutating the credential's resource-owner fields in place. -/
def OAuth1Session.fetch_request_token (s : OAuth1Session)
    (exchanged : OAuthTokenMapping) : OAuthTokenMapping × OAuth1Session :=
  (exchanged,
    { s with resource_owner_key := some exchanged.oauth_token,
             resource_owner_secret := some exchanged.oauth_token_secret })

/-- Modelled from the spec: `fetch_access_token` (§4.4) — same contract as
the request-token exchange. -/
def OAuth1Session.fetch_access_token (s : OAuth1Session)
    (exchanged : OAuthTokenMapping) : OAuthTokenMapping × OAuth1Session :=
  (exchanged,
    { s with resource_owner_key := some exchanged.oauth_token,
             resource_owner_secret := some exchanged.oauth_token_secret })

/-- Claim C8: a successful `fetch_request_token` (and `fetch_access_token`)
returns the exchanged token mapping and sets the session's resource-owner
key and secret to that mapping's `oauth_token` and `oauth_token_secret`. -/
theorem claim_C8_token_exchange (s : OAuth1Session)
    (m : OAuthTokenMapping) :
    (s.fetch_request_token m).1 = m ∧
    (s.fetch_request_token m).2.resource_owner_key = some m.oauth_token ∧
    (s.fetch_request_token m).2.resource_owner_secret =
      some m.oauth_token_secret ∧
    (s.fetch_access_token m).1 = m ∧
    (s.fetch_access_token m).2.resource_owner_key = some m.oauth_token ∧
    (s.fetch_access_token m).2.resource_owner_secret =
      some m.oauth_token_secret :=
  ⟨rfl, rfl, rfl, rfl, rfl, rfl⟩

/-! ### Optional OAuth import, from `src/src/requests_enhanced/__init__.py` -/

/-- Modelled from the spec: the exports of the optional oauth submodule
when its import succeeds (class objects abstracted as their names, so they
are non-None by construction). -/
structure OauthExports where
  oauth1EnhancedSession : String
  oauth2EnhancedSession : String
  oauthNotAvailableError : String
  oauthAvailable : Bool
deriving Repr, DecidableEq

/-- Modelled from the spec: importing the oauth submodule (§9 capability
probing; behaviour asserted by `tests/test_oauth_integration.py`) raises
ImportError exactly when the optional requests-oauthlib dependency is
absent; on success all three classes are bound and `OAUTH_AVAILABLE` is
True. -/
def importOauth (dependencyPresent : Bool) : Option OauthExports :=
  if dependencyPresent then
    some ⟨"OAuth1EnhancedSession", "OAuth2EnhancedSession",
      "OAuthNotAvailableError", true⟩
  else none

/-- The module-level bindings `__init__.py` leaves behind. -/
structure PackageState where
  oauthAvailable : Bool
  oauth1EnhancedSession : Option String
  oauth2EnhancedSession : Option String
  oauthNotAvailableError : Option String
deriving Repr, DecidableEq

/-- From `src/src/requests_enhanced/__init__.py` lines 17–29: the
try/except around the oauth import — on ImportError the flag is set to
False and the three names are bound to None; otherwise the submodule's
bindings are re-exported.  Package import itself always succeeds: this
function is total. -/
def packageInit (imported : Option OauthExports) : PackageState :=
  match imported with
  | none => ⟨false, none, none, none⟩
  | some e => ⟨e.oauthAvailable, some e.oauth1EnhancedSession,
      some e.oauth2EnhancedSession, some e.oauthNotAvailableError⟩

/-- Claim C9: when the OAuth dependency cannot be imported, package import
still succeeds with `OAUTH_AVAILABLE = False` and the three OAuth names
bound to None; when it succeeds, `OAUTH_AVAILABLE = True` and all three
names are non-None; in every case the package resolves to one of exactly
these two states, never an import-time failure. -/
theorem claim_C9_optional_oauth (dep : Bool) :
    packageInit (importOauth false) = ⟨false, none, none, none⟩ ∧
    (packageInit (importOauth true)).oauthAvailable = true ∧
    (packageInit (importOauth true)).oauth1EnhancedSession.isSome = true ∧
    (packageInit (importOauth true)).oauth2EnhancedSession.isSome = true ∧
    (packageInit (importOauth true)).oauthNotAvailableError.isSome = true ∧
    (packageInit (importOauth dep) = ⟨false, none, none, none⟩ ∨
      packageInit (importOauth dep) = packageInit (importOauth true)) := by
  refine ⟨rfl, rfl, rfl, rfl, rfl, ?_⟩
  cases dep
  · exact Or.inl rfl
  · exact Or.inr rfl

/-! ### Single-flight OAuth2 refresh, modelled from spec §5 -/

/-- State of the credential manager's refresh coordination: whether a
refresh is in flight, how many callers wait on its result, and how many
calls have reached the token exchanger. -/
structure RefreshCoordinator where
  refreshInFlight : Bool
  waiters : Nat
  exchangerCalls : Nat
deriving Repr, DecidableEq

/-- The coordinator before any caller observes an expired token. -/
def RefreshCoordinator.initial : RefreshCoordinator := ⟨false, 0, 0⟩

/-- Modelled from the spec: the refresh lock of §5 — a caller observing
Expired/401 while a refresh is pending joins the waiters of that pending
refresh rather than issuing a duplicate; otherwise it acquires the lock,
issues the single exchanger call, and waits on its own refresh. -/
def RefreshCoordinator.arrive (st : RefreshCoordinator) : RefreshCoordinator :=
  if st.refreshInFlight then
    { st with waiters := st.waiters + 1 }
  else
    ⟨true, st.waiters + 1, st.exchangerCalls + 1⟩

/-- The coordinator after `n` callers have observed the expired token. -/
def arrivals : Nat → RefreshCoordinator
  | 0 => RefreshCoordinator.initial
  | n + 1 => (arrivals n).arrive

/-- Modelled from the spec: completion of the in-flight refresh delivers
the refreshed token to every waiter and releases the lock. -/
def RefreshCoordinator.complete (st : RefreshCoordinator) (t : Token) :
    RefreshCoordinator × List Token :=
  (⟨false, 0, st.exchangerCalls⟩, List.replicate st.waiters t)

/-- After the first arrival the refresh is in flight, every further arrival
only joins the waiters, and the exchanger has been called exactly once. -/
theorem arrivals_succ_eq (n : Nat) :
    arrivals (n + 1) = ⟨true, n + 1, 1⟩ := by
  induction n with
  | zero => rfl
  | succ m ih =>
    show (arrivals (m + 1)).arrive = _
    rw [ih]
    rfl

/-- Claim C10: for any positive number of callers that observe the expired
token, exactly one call reaches the token exchanger, all callers wait on
that single pending refresh, and on completion every caller observes the
same refreshed token. -/
theorem claim_C10_single_flight (n : Nat) (hn : 1 ≤ n) (t : Token) :
    (arrivals n).exchangerCalls = 1 ∧
    (arrivals n).waiters = n ∧
    ((arrivals n).complete t).2 = List.replicate n t ∧
    ∀ tok ∈ ((arrivals n).complete t).2, tok = t := by
  obtain ⟨m, rfl⟩ : ∃ m, n = m + 1 := ⟨n - 1, by omega⟩
  rw [arrivals_succ_eq]
  refine ⟨rfl, rfl, rfl, ?_⟩
  intro tok htok
  exact List.eq_of_mem_replicate htok

/-- Witness for C10 with three concurrent callers and a concrete token. -/
theorem claim_C10_single_flight_witness :
    (arrivals 3).exchangerCalls = 1 ∧
    (arrivals 3).waiters = 3 ∧
    ((arrivals 3).complete ⟨"tok", "Bearer", none, none⟩).2 =
      List.replicate 3 ⟨"tok", "Bearer", none, none⟩ :=
  have h := claim_C10_single_flight 3 (by norm_num)
    ⟨"tok", "Bearer", none, none⟩
  ⟨h.1, h.2.1, h.2.2.1⟩

end RequestsEnhanced
